import Mathlib

/-!
Verification of the reminder-bot core (duration parser in `time_parser.py`,
intake/delivery state machine in `bot.py`) against its natural-language
specification.  The Python code is shallowly embedded: pure functions become
Lean functions, the database plus outbound calls become an explicit `BotDB`
state threaded through the processors, and the wall clock becomes an explicit
`now` parameter.  Machine integers do not overflow anywhere in the source, so
`Nat`/`Int` are used directly.
-/

namespace RemindMeX

/-! ## Datetime model

Python `datetime.datetime` at second resolution (the bot only ever constructs
second-resolution instants; microseconds are never consulted by the code under
verification). -/

/-- A Python `datetime.datetime` value (proleptic Gregorian calendar). -/
structure PyDateTime where
  year : Nat
  month : Nat
  day : Nat
  hour : Nat
  minute : Nat
  second : Nat
deriving DecidableEq

/-- Gregorian leap-year rule, as used by `calendar`/`datetime`/`dateutil`. -/
def isLeapYear (y : Nat) : Bool :=
  y % 4 == 0 && (y % 100 != 0 || y % 400 == 0)

/-- Number of days in month `m` of year `y` (`calendar.monthrange(y, m)[1]`). -/
def daysInMonth (y m : Nat) : Nat :=
  if m = 2 then (if isLeapYear y then 29 else 28)
  else if m = 4 ∨ m = 6 ∨ m = 9 ∨ m = 11 then 30
  else 31

/-- Days in year `y` strictly before month `m`. -/
def daysBeforeMonth (y m : Nat) : Nat :=
  ((List.range (m - 1)).map (fun i => daysInMonth y (i + 1))).sum

/-- Days strictly before January 1 of year `y`, counting from year 1
(the standard proleptic-Gregorian ordinal arithmetic behind
`datetime.date.toordinal`). -/
def daysBeforeYear (y : Nat) : Nat :=
  365 * (y - 1) + (y - 1) / 4 - (y - 1) / 100 + (y - 1) / 400

/-- `datetime.date.toordinal`: day number with 0001-01-01 ↦ 1. -/
def toOrdinal (dt : PyDateTime) : Nat :=
  daysBeforeYear dt.year + daysBeforeMonth dt.year dt.month + dt.day

/-- Absolute second count of an instant (ordinal day × 86400 + time of day);
differences of this quantity are exactly `(a - b).total_seconds()` on Python
datetimes. -/
def toSeconds (dt : PyDateTime) : Nat :=
  toOrdinal dt * 86400 + dt.hour * 3600 + dt.minute * 60 + dt.second

/-- The calendar successor day (time of day unchanged). -/
def nextDay (dt : PyDateTime) : PyDateTime :=
  if dt.day < daysInMonth dt.year dt.month then { dt with day := dt.day + 1 }
  else if dt.month < 12 then { dt with month := dt.month + 1, day := 1 }
  else { dt with year := dt.year + 1, month := 1, day := 1 }

/-- Add `n` calendar days. -/
def addDays (dt : PyDateTime) : Nat → PyDateTime
  | 0 => dt
  | n + 1 => addDays (nextDay dt) n

/-- `dt + datetime.timedelta(seconds = n)`: exact shift of the instant by `n`
seconds, carrying overflow of the time of day into following days. -/
def addSeconds (dt : PyDateTime) (n : Nat) : PyDateTime :=
  let tod := dt.hour * 3600 + dt.minute * 60 + dt.second + n
  addDays
    { dt with hour := tod % 86400 / 3600, minute := tod % 3600 / 60,
              second := tod % 60 }
    (tod / 86400)

/-- `dt + dateutil.relativedelta.relativedelta(months = n)`: advance the month
(carrying into the year) and clamp the day-of-month to the target month's
length. -/
def addMonths (dt : PyDateTime) (n : Nat) : PyDateTime :=
  let t := dt.month - 1 + n
  let y := dt.year + t / 12
  let m := t % 12 + 1
  { dt with year := y, month := m, day := min dt.day (daysInMonth y m) }

/-- `dt + dateutil.relativedelta.relativedelta(years = n)`: advance the year
and clamp the day-of-month (Feb 29 → Feb 28 in a non-leap target year). -/
def addYears (dt : PyDateTime) (n : Nat) : PyDateTime :=
  { dt with year := dt.year + n,
            day := min dt.day (daysInMonth (dt.year + n) dt.month) }

/-- The representable-by-`datetime` instants: every field in range. -/
def ValidDT (dt : PyDateTime) : Prop :=
  1 ≤ dt.year ∧ 1 ≤ dt.month ∧ dt.month ≤ 12 ∧ 1 ≤ dt.day ∧
    dt.day ≤ daysInMonth dt.year dt.month ∧
    dt.hour < 24 ∧ dt.minute < 60 ∧ dt.second < 60

instance (dt : PyDateTime) : Decidable (ValidDT dt) := by
  unfold ValidDT; infer_instance

/-! ## Text normalization (`TimeParser.parse` preamble)

`text.lower().strip()`, then `re.sub(r"@\w+", "", text)`, then `.strip()`. -/

/-- `str.isdigit` on ASCII / regex `\d`. -/
def isDigitChar (c : Char) : Bool := '0' ≤ c && c ≤ '9'

/-- Regex `\s` (Python whitespace). -/
def isSpaceChar (c : Char) : Bool :=
  c = ' ' || c = '\t' || c = '\n' || c = '\r' || c = '\x0b' || c = '\x0c'

/-- Regex `\w` (ASCII range; the texts under verification are ASCII). -/
def isWordChar (c : Char) : Bool :=
  ('a' ≤ c && c ≤ 'z') || ('A' ≤ c && c ≤ 'Z') || isDigitChar c || c = '_'

/-- `str.strip()`: drop leading and trailing whitespace. -/
def pyStrip (cs : List Char) : List Char :=
  ((cs.dropWhile isSpaceChar).reverse.dropWhile isSpaceChar).reverse

/-- State for the single-pass `re.sub(r"@\w+", "", ·)` scanner:
`norm` = copying ordinary characters, `afterAt` = an `@` has been read but no
word character yet (the `@` is held back, pending a word character),
`inWord` = inside the `\w+` run of a mention being deleted. -/
inductive SubState where
  | norm | afterAt | inWord
deriving DecidableEq

/-- One left-to-right pass implementing `re.sub(r"@\w+", "", ·)`:
each `@` followed by one or more word characters is deleted (greedily and
non-overlapping, exactly as `re.sub` rewrites). -/
def subMentionsGo : SubState → List Char → List Char
  | .norm, [] => []
  | .norm, c :: rest =>
    if c = '@' then subMentionsGo .afterAt rest else c :: subMentionsGo .norm rest
  | .afterAt, [] => ['@']
  | .afterAt, c :: rest =>
    if isWordChar c then subMentionsGo .inWord rest
    else if c = '@' then '@' :: subMentionsGo .afterAt rest
    else '@' :: c :: subMentionsGo .norm rest
  | .inWord, [] => []
  | .inWord, c :: rest =>
    if isWordChar c then subMentionsGo .inWord rest
    else if c = '@' then subMentionsGo .afterAt rest
    else c :: subMentionsGo .norm rest

/-- `re.sub(r"@\w+", "", cs)`. -/
def subMentions (cs : List Char) : List Char :=
  subMentionsGo .norm cs

/-- The normalization done at the top of `TimeParser.parse`:
`text.lower().strip()`, strip `@`-mentions, `strip()` again. -/
def normalizeText (text : String) : List Char :=
  pyStrip (subMentions (pyStrip (text.data.map Char.toLower)))

/-! ## Explicit duration patterns (`TimeParser._parse_explicit_duration`)

Each pattern is `(\d+)\s*(alt₁|alt₂|…)s?`, searched with `re.search` (leftmost
match).  Since no alternative begins with a digit or whitespace, the greedy
`\d+` and `\s*` runs are forced maximal and the scan is deterministic. -/

/-- The time units of `duration_patterns`. -/
inductive TimeUnit where
  | seconds | minutes | hours | days | weeks | months | years
deriving DecidableEq

/-- `self.duration_patterns`: alternation lists with their units, in source
order.  The regex bodies are `(\d+)\s*(second|sec|s)s?` and so on. -/
def duration_patterns : List (List String × TimeUnit) :=
  [ (["second", "sec", "s"], .seconds),
    (["minute", "min", "m"], .minutes),
    (["hour", "hr", "h"], .hours),
    (["day", "d"], .days),
    (["week", "wk", "w"], .weeks),
    (["month", "mo"], .months),
    (["year", "yr", "y"], .years) ]

/-- `int(match.group(1))` from the digit span. -/
def digitsToNat (cs : List Char) : Nat :=
  cs.foldl (fun n c => n * 10 + (c.toNat - 48)) 0

/-- Try to match `(\d+)\s*(alts)s?` anchored at the head of `cs`; on success
return `(int(group(1)), group(0))`.  Alternatives are tried in regex order
(first alternative that is a literal prefix wins — Python alternation). -/
def matchDurationAt (alts : List (List Char)) (cs : List Char) :
    Option (Nat × List Char) :=
  let digits := cs.takeWhile isDigitChar
  if digits.isEmpty then none
  else
    let r1 := cs.dropWhile isDigitChar
    let sp := r1.takeWhile isSpaceChar
    let r2 := r1.dropWhile isSpaceChar
    match alts.find? (fun a => a.isPrefixOf r2) with
    | none => none
    | some a =>
      let r3 := r2.drop a.length
      let sOpt := if r3.headD ' ' = 's' then ['s'] else []
      some (digitsToNat digits, digits ++ sp ++ a ++ sOpt)

/-- `re.search` of one duration pattern: try each start position left to
right, first success wins. -/
def searchDuration (alts : List (List Char)) : List Char → Option (Nat × List Char)
  | [] => none
  | c :: rest =>
    match matchDurationAt alts (c :: rest) with
    | some r => some r
    | none => searchDuration alts rest

/-- The `for pattern, unit in self.duration_patterns` loop: first pattern that
matches anywhere in the text wins. -/
def findPatternMatch : List (List String × TimeUnit) → List Char →
    Option (Nat × List Char × TimeUnit)
  | [], _ => none
  | (alts, u) :: rest, cs =>
    match searchDuration (alts.map String.data) cs with
    | some (amount, matched) => some (amount, matched, u)
    | none => findPatternMatch rest cs

/-- The `if unit == …` ladder: fixed-length units add a `timedelta`,
month/year units add a `relativedelta`. -/
def applyUnit (u : TimeUnit) (amount : Nat) (base : PyDateTime) : PyDateTime :=
  match u with
  | .seconds => addSeconds base amount
  | .minutes => addSeconds base (amount * 60)
  | .hours => addSeconds base (amount * 3600)
  | .days => addSeconds base (amount * 86400)
  | .weeks => addSeconds base (amount * 604800)
  | .months => addMonths base amount
  | .years => addYears base amount

/-- `TimeParser._parse_explicit_duration` on already-normalized text. -/
def parse_explicit_duration (cs : List Char) (base : PyDateTime) :
    Option (PyDateTime × List Char) :=
  match findPatternMatch duration_patterns cs with
  | some (amount, matched, u) => some (applyUnit u amount base, matched)
  | none => none

/-! ## Natural-language fallback (`TimeParser._parse_natural_language`) -/

/-- Abstract model of `parsedatetime.Calendar.parse` followed by
`datetime(*time_struct[:6])`: `some t` when the parse status is positive and
the struct converts to a datetime, `none` when the status is 0 or an exception
is raised.  The library is an external dependency, so it stays a parameter. -/
def NLResolver : Type := List Char → PyDateTime → Option PyDateTime

/-- `phrases_to_try`: the raw text, `"in {text}"`, `"{text} from now"`. -/
def nlPhrases (cs : List Char) : List (List Char) :=
  [cs, "in ".data ++ cs, cs ++ " from now".data]

/-- The `for phrase in phrases_to_try` loop: accept the first phrase whose
resolution is strictly after `base`; non-future resolutions and failures fall
through to the next phrase. -/
def nlLoop (resolve : NLResolver) (base : PyDateTime) (label : List Char) :
    List (List Char) → Option (PyDateTime × List Char)
  | [] => none
  | p :: ps =>
    match resolve p base with
    | some t =>
      if toSeconds base < toSeconds t then some (t, label)
      else nlLoop resolve base label ps
    | none => nlLoop resolve base label ps

/-- `TimeParser._parse_natural_language` on already-normalized text. -/
def parse_natural_language (resolve : NLResolver) (cs : List Char)
    (base : PyDateTime) : Option (PyDateTime × List Char) :=
  nlLoop resolve base cs (nlPhrases cs)

/-- `TimeParser.parse`: normalize, try the explicit phase, fall back to the
natural-language phase.  `None` results model the `(None, None)` return. -/
def parse (resolve : NLResolver) (text : String) (base : PyDateTime) :
    Option (PyDateTime × List Char) :=
  let cs := normalizeText text
  match parse_explicit_duration cs base with
  | some r => some r
  | none => parse_natural_language resolve cs base

/-! ## `TimeParser.format_duration` -/

/-- The pluralization `'s' if n != 1 else ''`. -/
def pluralS (n : Int) : String := if n ≠ 1 then "s" else ""

/-- The bucket ladder of `format_duration`, applied to
`int((target - base).total_seconds())`. -/
def formatTotalSeconds (ts : Int) : String :=
  if ts < 60 then toString ts ++ " second" ++ pluralS ts
  else if ts < 3600 then toString (ts / 60) ++ " minute" ++ pluralS (ts / 60)
  else if ts < 86400 then toString (ts / 3600) ++ " hour" ++ pluralS (ts / 3600)
  else if ts < 604800 then toString (ts / 86400) ++ " day" ++ pluralS (ts / 86400)
  else if ts < 2592000 then
    toString (ts / 604800) ++ " week" ++ pluralS (ts / 604800)
  else if ts < 31536000 then
    toString (ts / 2592000) ++ " month" ++ pluralS (ts / 2592000)
  else toString (ts / 31536000) ++ " year" ++ pluralS (ts / 31536000)

/-- `TimeParser.format_duration(target, base)`. -/
def format_duration (target base : PyDateTime) : String :=
  formatTotalSeconds ((toSeconds target : Int) - (toSeconds base : Int))

/-! ## Bot state machine (`bot.py` + `models.py`)

The database (three tables of `models.py`) and the outbound `create_tweet`
calls are gathered in one explicit state record.  Each outbound call appears
as an `OutEvent` carrying the data the call site passes; the wall clock is the
explicit `now` argument. -/

/-- One row of the `reminders` table. -/
structure Reminder where
  id : Nat
  source_tweet_id : String
  reply_to_tweet_id : String
  requester_user_id : String
  requester_username : String
  original_text : String
  duration_text : String
  remind_at : PyDateTime
  created_at : PyDateTime
  is_sent : Bool
  sent_at : Option PyDateTime
  reply_tweet_id : Option String
  error_message : Option String
deriving DecidableEq

/-- An inbound mention as assembled by `fetch_mentions`. -/
structure Mention where
  id : String
  text : String
  author_id : String
  author_username : String
deriving DecidableEq

/-- One outbound `client.create_tweet` call, tagged by call site and carrying
the data that determines the reply text. -/
inductive OutEvent where
  | confirmReply (replyTo : String) (targetTime : PyDateTime) (durationLabel : String)
  | errorReply (replyTo : String)
  | reminderReply (replyTo : String) (reminderId : Nat) (ok : Bool)
deriving DecidableEq

/-- The persistent store plus the log of outbound calls.  `nextReminderId`
models the autoincrement primary key of `reminders`; the unique constraint on
`source_tweet_id` and on `processed_mentions.tweet_id` is enforced by the
operations below, exactly where `IntegrityError` is raised/caught in the
source. -/
structure BotDB where
  reminders : List Reminder
  nextReminderId : Nat
  processedMentions : List String
  lastMentionId : Option String
  outbox : List OutEvent
deriving DecidableEq

/-- `RemindMeBot.is_mention_processed`. -/
def is_mention_processed (db : BotDB) (tweetId : String) : Bool :=
  decide (tweetId ∈ db.processedMentions)

/-- `RemindMeBot.mark_mention_processed`: the duplicate-key `IntegrityError`
is swallowed, so a second call is a no-op. -/
def mark_mention_processed (db : BotDB) (tweetId : String) : BotDB :=
  if tweetId ∈ db.processedMentions then db
  else { db with processedMentions := db.processedMentions ++ [tweetId] }

/-- `RemindMeBot.set_last_mention_id`. -/
def set_last_mention_id (db : BotDB) (mentionId : String) : BotDB :=
  { db with lastMentionId := some mentionId }

/-- `RemindMeBot.process_mention`.  The four guarded stages of the source, in
order: the already-processed check, the parse (failure → mark processed, error
reply), the reminder insert (unique-constraint violation → rollback and
`return None`, nothing else happens), and on successful insert the
processed-marker, confirmation reply and cursor update. -/
def process_mention (resolve : NLResolver) (now : PyDateTime) (db : BotDB)
    (mention : Mention) : BotDB × Option Reminder :=
  if is_mention_processed db mention.id then (db, none)
  else
    match parse resolve mention.text now with
    | none =>
      let db1 := mark_mention_processed db mention.id
      let db2 := { db1 with outbox := db1.outbox ++ [.errorReply mention.id] }
      (db2, none)
    | some (targetTime, durationText) =>
      if ∃ r ∈ db.reminders, r.source_tweet_id = mention.id then
        (db, none)
      else
        let r : Reminder :=
          { id := db.nextReminderId
            source_tweet_id := mention.id
            reply_to_tweet_id := mention.id
            requester_user_id := mention.author_id
            requester_username := mention.author_username
            original_text := mention.text
            duration_text := String.mk durationText
            remind_at := targetTime
            created_at := now
            is_sent := false
            sent_at := none
            reply_tweet_id := none
            error_message := none }
        let db1 :=
          { db with reminders := db.reminders ++ [r],
                    nextReminderId := db.nextReminderId + 1 }
        let db2 := mark_mention_processed db1 mention.id
        let db3 :=
          { db2 with outbox :=
              db2.outbox ++ [.confirmReply mention.id targetTime (String.mk durationText)] }
        let db4 := set_last_mention_id db3 mention.id
        (db4, some r)

/-- `RemindMeBot.get_due_reminders`: unsent reminders with `remind_at ≤ now`. -/
def get_due_reminders (db : BotDB) (now : PyDateTime) : List Reminder :=
  db.reminders.filter
    (fun r => !r.is_sent && decide (toSeconds r.remind_at ≤ toSeconds now))

/-- The outcome of one outbound reminder `create_tweet` call for a given
reminder id: a receipt (tweet) id, or the message of the raised
`TweepyException`.  The network is an external collaborator, so the outcome
map is a parameter of the delivery processor. -/
def SendOutcome : Type := Nat → Except String String

/-- Point update of the row with primary key `rid`. -/
def updateReminder (rs : List Reminder) (rid : Nat) (f : Reminder → Reminder) :
    List Reminder :=
  rs.map (fun r => if r.id = rid then f r else r)

/-- The row mutation `send_reminder` commits on a successful outbound call:
`is_sent = True`, `sent_at = utcnow()`, `reply_tweet_id = receipt`. -/
def markSent (now : PyDateTime) (receiptId : String) (r0 : Reminder) : Reminder :=
  { r0 with is_sent := true, sent_at := some now,
            reply_tweet_id := some receiptId }

/-- The row mutation `send_reminder` commits when the outbound call raises:
`error_message = str(e)`, everything else untouched (still Pending). -/
def recordError (e : String) (r0 : Reminder) : Reminder :=
  { r0 with error_message := some e }

/-- `RemindMeBot.send_reminder`: re-fetch the row by id; skip (returning
`True`) if already sent; otherwise attempt the outbound call — on success mark
sent with `sent_at`/`reply_tweet_id`, on `TweepyException` record
`error_message` and leave the reminder unsent.  A vanished row hits the
generic exception path and returns `False`. -/
def send_reminder (outcome : SendOutcome) (now : PyDateTime) (db : BotDB)
    (rid : Nat) : BotDB × Bool :=
  match db.reminders.find? (fun r => r.id == rid) with
  | none => (db, false)
  | some r =>
    if r.is_sent then (db, true)
    else
      match outcome rid with
      | .ok receiptId =>
        ({ db with
            reminders := updateReminder db.reminders rid (markSent now receiptId)
            outbox := db.outbox ++ [.reminderReply r.reply_to_tweet_id rid true] },
         true)
      | .error e =>
        ({ db with
            reminders := updateReminder db.reminders rid (recordError e)
            outbox := db.outbox ++ [.reminderReply r.reply_to_tweet_id rid false] },
         false)

/-- `RemindMeBot.process_due_reminders`: snapshot the due list, then send each
one in order; `send_reminder` traps its own exceptions, so one failure never
stops the loop. -/
def process_due_reminders (outcome : SendOutcome) (now : PyDateTime)
    (db : BotDB) : BotDB :=
  (get_due_reminders db now).foldl
    (fun st r => (send_reminder outcome now st r.id).1) db

/-! ## Calendar arithmetic lemmas -/

theorem daysInMonth_pos (y m : Nat) : 1 ≤ daysInMonth y m := by
  unfold daysInMonth
  split
  · split <;> omega
  · split <;> omega

theorem daysBeforeMonth_succ (y m : Nat) (h : 1 ≤ m) :
    daysBeforeMonth y (m + 1) = daysBeforeMonth y m + daysInMonth y m := by
  obtain ⟨k, rfl⟩ : ∃ k, m = k + 1 := ⟨m - 1, by omega⟩
  simp [daysBeforeMonth, List.range_succ]

theorem isLeapYear_iff (y : Nat) :
    isLeapYear y = true ↔ (y % 4 = 0 ∧ (y % 100 ≠ 0 ∨ y % 400 = 0)) := by
  simp [isLeapYear]

theorem daysBeforeMonth_twelve (y : Nat) :
    daysBeforeMonth y 12 = 334 + (if isLeapYear y then 1 else 0) := by
  have hr : List.range 11 = [0, 1, 2, 3, 4, 5, 6, 7, 8, 9, 10] := rfl
  cases hl : isLeapYear y <;>
    simp [daysBeforeMonth, hr, daysInMonth, hl]

set_option maxHeartbeats 1000000 in
theorem daysBeforeYear_succ (y : Nat) (hy : 1 ≤ y) :
    daysBeforeYear (y + 1) =
      daysBeforeYear y + 365 + (if isLeapYear y then 1 else 0) := by
  cases hl : isLeapYear y
  · have hp : ¬(y % 4 = 0 ∧ (y % 100 ≠ 0 ∨ y % 400 = 0)) := by
      intro hcon
      have h2 := (isLeapYear_iff y).mpr hcon
      rw [hl] at h2
      exact Bool.noConfusion h2
    unfold daysBeforeYear
    rw [show (if (false = true) then (1 : Nat) else 0) = 0 from rfl]
    by_cases h4 : y % 4 = 0
    · by_cases h400 : y % 400 = 0
      · exact absurd ⟨h4, Or.inr h400⟩ hp
      · have h100 : y % 100 = 0 := by
          by_contra h100
          exact hp ⟨h4, Or.inl h100⟩
        omega
    · omega
  · have hp : y % 4 = 0 ∧ (y % 100 ≠ 0 ∨ y % 400 = 0) := (isLeapYear_iff y).mp hl
    unfold daysBeforeYear
    rw [show (if (true = true) then (1 : Nat) else 0) = 1 from rfl]
    rcases hp with ⟨h4, h100 | h400⟩ <;> omega

theorem toSeconds_nextDay (dt : PyDateTime) (h : ValidDT dt) :
    toSeconds (nextDay dt) = toSeconds dt + 86400 := by
  obtain ⟨y, mo, d, hh, mi, s⟩ := dt
  obtain ⟨h1, h2, h3, h4, h5, h6, h7, h8⟩ :
      1 ≤ y ∧ 1 ≤ mo ∧ mo ≤ 12 ∧ 1 ≤ d ∧ d ≤ daysInMonth y mo ∧
        hh < 24 ∧ mi < 60 ∧ s < 60 := h
  unfold nextDay
  try dsimp only
  split
  · simp only [toSeconds, toOrdinal]
    try dsimp only
    ring
  · rename_i hnd
    split
    · rename_i hmo
      simp only [toSeconds, toOrdinal]
      try dsimp only
      rw [daysBeforeMonth_succ y mo h2]
      omega
    · rename_i hmo
      have hm12 : mo = 12 := by omega
      subst hm12
      have hdim : daysInMonth y 12 = 31 := by norm_num [daysInMonth]
      simp only [toSeconds, toOrdinal]
      try dsimp only
      rw [daysBeforeYear_succ y h1, daysBeforeMonth_twelve y]
      have hone : daysBeforeMonth (y + 1) 1 = 0 := by simp [daysBeforeMonth]
      rw [hone]
      split <;> omega

theorem validDT_nextDay (dt : PyDateTime) (h : ValidDT dt) :
    ValidDT (nextDay dt) := by
  have hp1 := daysInMonth_pos dt.year (dt.month + 1)
  have hp2 := daysInMonth_pos (dt.year + 1) 1
  obtain ⟨h1, h2, h3, h4, h5, h6, h7, h8⟩ := h
  unfold nextDay
  split
  · exact ⟨h1, h2, h3, by dsimp only; omega, by dsimp only; omega, h6, h7, h8⟩
  · split
    · exact ⟨h1, by dsimp only; omega, by dsimp only; omega,
        by dsimp only; omega, by dsimp only; omega, h6, h7, h8⟩
    · exact ⟨by dsimp only; omega, by dsimp only; omega, by dsimp only; omega,
        by dsimp only; omega, by dsimp only; omega, h6, h7, h8⟩

theorem toSeconds_addDays (k : Nat) : ∀ dt : PyDateTime, ValidDT dt →
    toSeconds (addDays dt k) = toSeconds dt + k * 86400 := by
  induction k with
  | zero => intro dt _; simp [addDays]
  | succ n ih =>
    intro dt h
    show toSeconds (addDays (nextDay dt) n) = _
    rw [ih (nextDay dt) (validDT_nextDay dt h), toSeconds_nextDay dt h]
    ring

theorem toSeconds_addSeconds (dt : PyDateTime) (n : Nat) (h : ValidDT dt) :
    toSeconds (addSeconds dt n) = toSeconds dt + n := by
  obtain ⟨y, mo, d, hh, mi, s⟩ := dt
  obtain ⟨h1, h2, h3, h4, h5, h6, h7, h8⟩ :
      1 ≤ y ∧ 1 ≤ mo ∧ mo ≤ 12 ∧ 1 ≤ d ∧ d ≤ daysInMonth y mo ∧
        hh < 24 ∧ mi < 60 ∧ s < 60 := h
  simp only [addSeconds]
  try dsimp only
  rw [toSeconds_addDays]
  · simp only [toSeconds, toOrdinal]
    try dsimp only
    omega
  · exact ⟨h1, h2, h3, h4, h5, by dsimp only; omega, by dsimp only; omega,
      by dsimp only; omega⟩

theorem addSeconds_zero (dt : PyDateTime) (h : ValidDT dt) :
    addSeconds dt 0 = dt := by
  obtain ⟨y, mo, d, hh, mi, s⟩ := dt
  obtain ⟨h1, h2, h3, h4, h5, h6, h7, h8⟩ :
      1 ≤ y ∧ 1 ≤ mo ∧ mo ≤ 12 ∧ 1 ≤ d ∧ d ≤ daysInMonth y mo ∧
        hh < 24 ∧ mi < 60 ∧ s < 60 := h
  simp only [addSeconds]
  try dsimp only
  have h0 : (hh * 3600 + mi * 60 + s + 0) / 86400 = 0 := by omega
  rw [h0]
  simp only [addDays, PyDateTime.mk.injEq, true_and, and_true]
  omega

theorem addMonths_zero (dt : PyDateTime) (h : ValidDT dt) :
    addMonths dt 0 = dt := by
  obtain ⟨y, mo, d, hh, mi, s⟩ := dt
  obtain ⟨h1, h2, h3, h4, h5, h6, h7, h8⟩ :
      1 ≤ y ∧ 1 ≤ mo ∧ mo ≤ 12 ∧ 1 ≤ d ∧ d ≤ daysInMonth y mo ∧
        hh < 24 ∧ mi < 60 ∧ s < 60 := h
  simp only [addMonths]
  try dsimp only
  have e2 : y + (mo - 1 + 0) / 12 = y := by omega
  have e3 : (mo - 1 + 0) % 12 + 1 = mo := by omega
  rw [e2, e3]
  simp only [PyDateTime.mk.injEq, true_and, and_true]
  omega

theorem addYears_zero (dt : PyDateTime) (h : ValidDT dt) :
    addYears dt 0 = dt := by
  obtain ⟨y, mo, d, hh, mi, s⟩ := dt
  obtain ⟨h1, h2, h3, h4, h5, h6, h7, h8⟩ :
      1 ≤ y ∧ 1 ≤ mo ∧ mo ≤ 12 ∧ 1 ≤ d ∧ d ≤ daysInMonth y mo ∧
        hh < 24 ∧ mi < 60 ∧ s < 60 := h
  simp only [addYears, Nat.add_zero]
  try dsimp only
  simp only [PyDateTime.mk.injEq, true_and, and_true]
  omega

/-! ## Spec-side reference definitions

These two definitions transcribe the SPEC's wording (not the code); the
corresponding theorems show the code refines them. -/

/-- Modelled from the spec: "scan for the first occurrence (leftmost match
wins)" — the leftmost starting position at which the pattern matches. -/
def searchDurationSpec (alts : List (List Char)) (cs : List Char) :
    Option (Nat × List Char) :=
  (List.range cs.length).findSome? (fun i => matchDurationAt alts (cs.drop i))

/-- Modelled from the spec: "try the raw text, then `in {text}`, then
`{text} from now`; accept the first candidate that parses to an instant
strictly after the reference instant; reject if nothing yields a strictly
future instant". -/
def nlFirstFutureSpec (resolve : NLResolver) (cs : List Char)
    (base : PyDateTime) : Option (PyDateTime × List Char) :=
  ((nlPhrases cs).findSome? (fun p =>
    (resolve p base).bind (fun t =>
      if toSeconds base < toSeconds t then some t else none))).map
    (fun t => (t, cs))

theorem list_findSome?_comp_map {α β γ : Type} (g : α → β) (f : β → Option γ) :
    ∀ l : List α, (l.map g).findSome? f = l.findSome? (fun a => f (g a)) := by
  intro l
  induction l with
  | nil => rfl
  | cons a l ih =>
    simp only [List.map_cons, List.findSome?]
    cases f (g a) <;> simp [ih]

theorem searchDuration_eq_spec (alts : List (List Char)) :
    ∀ cs, searchDuration alts cs = searchDurationSpec alts cs := by
  intro cs
  induction cs with
  | nil => rfl
  | cons c cs ih =>
    have hRHS : searchDurationSpec alts (c :: cs) =
        match matchDurationAt alts (c :: cs) with
        | some r => some r
        | none => searchDurationSpec alts cs := by
      unfold searchDurationSpec
      rw [List.length_cons, List.range_succ_eq_map, List.findSome?_cons]
      simp only [List.drop_zero]
      rw [list_findSome?_comp_map]
      simp only [List.drop_succ_cons]
      cases matchDurationAt alts (c :: cs) <;> rfl
    rw [hRHS]
    unfold searchDuration
    cases hx : matchDurationAt alts (c :: cs) with
    | some r => rfl
    | none => exact ih

theorem nlLoop_eq_findSome? (resolve : NLResolver) (base : PyDateTime)
    (label : List Char) :
    ∀ ps, nlLoop resolve base label ps =
      (ps.findSome? (fun p => (resolve p base).bind (fun t =>
        if toSeconds base < toSeconds t then some t else none))).map
        (fun t => (t, label)) := by
  intro ps
  induction ps with
  | nil => rfl
  | cons p ps ih =>
    simp only [nlLoop, List.findSome?]
    cases hr : resolve p base with
    | none => simpa [hr, Option.bind] using ih
    | some t =>
      by_cases hf : toSeconds base < toSeconds t
      · simp [hr, hf, Option.bind]
      · simpa [hr, hf, Option.bind] using ih

/-! ## Counting helpers over the state (used to state the claims) -/

/-- Number of reminder rows whose dedup key `source_tweet_id` is `srcId`. -/
def remindersFor (db : BotDB) (srcId : String) : Nat :=
  db.reminders.countP (fun r => decide (r.source_tweet_id = srcId))

/-- Whether an outbound event is the intake confirmation reply for `mid`. -/
def isConfirmFor (mid : String) : OutEvent → Bool
  | .confirmReply replyTo _ _ => decide (replyTo = mid)
  | _ => false

/-- Number of confirmation replies sent for mention `mid`. -/
def confirmsFor (db : BotDB) (mid : String) : Nat :=
  db.outbox.countP (isConfirmFor mid)

/-! ## Concrete instances used to instantiate the theorems -/

/-- A resolver that never parses anything (e.g. `parsedatetime` finding no
date phrase). -/
def resolveNone : NLResolver := fun _ _ => none

/-! ## Claims about the duration parser -/

/-- Claim C1 — evaluation of the code at the failing input: parsing
"1 month" with reference 2024-01-31T00:00:00Z returns
2024-01-31T00:01:00 with matched text "1 m": the minutes pattern's bare
abbreviation `m` matches the initial letter of "month", and the minutes
pattern is tried before the months pattern, so the calendar-arithmetic
result 2024-02-29T00:00:00 — which `addMonths`, the embedded
`relativedelta(months=…)` branch, yields from the same reference, as the
claim demands — is never produced. -/
theorem C1_one_month_parses_as_one_minute :
    (∀ resolve : NLResolver,
      parse resolve "1 month" ⟨2024, 1, 31, 0, 0, 0⟩ =
        some (⟨2024, 1, 31, 0, 1, 0⟩, "1 m".data)) ∧
    addMonths ⟨2024, 1, 31, 0, 0, 0⟩ 1 = ⟨2024, 2, 29, 0, 0, 0⟩ :=
  ⟨fun _ => rfl, rfl⟩

/-- Claim C2 — counterexample: on "remind me 3 months please, thanks 2x"
with reference 2024-01-31T00:00:00Z the explicit phase resolves via the
minutes pattern to "3 m" (reference plus 3 minutes), not to the "3 months"
match (reference plus 3 calendar months) the claim asserts. -/
theorem C2_counterexample :
    parse resolveNone "remind me 3 months please, thanks 2x"
        ⟨2024, 1, 31, 0, 0, 0⟩ =
      some (⟨2024, 1, 31, 0, 3, 0⟩, "3 m".data) ∧
    parse resolveNone "remind me 3 months please, thanks 2x"
        ⟨2024, 1, 31, 0, 0, 0⟩ ≠
      some (addMonths ⟨2024, 1, 31, 0, 0, 0⟩ 3, "3 months".data) :=
  ⟨rfl, by decide⟩

/-- Claim C2 — amended: the explicit phase tries the unit patterns in the
fixed source order (seconds, minutes, hours, days, weeks, months, years) and,
for the first pattern that matches at all, selects that pattern's leftmost
occurrence in the text (`searchDuration` coincides with the
leftmost-starting-position specification `searchDurationSpec`); only one unit
is accepted per input.  "remind me 3 months please, thanks 2x" therefore
resolves via the minutes pattern to "3 m" — reference plus 3 minutes — for
every resolver and reference instant, because the bare abbreviation `m`
matches the `m` of "months" and minutes are tried before months. -/
theorem C2_first_pattern_leftmost :
    (∀ alts cs, searchDuration alts cs = searchDurationSpec alts cs) ∧
    (∀ (resolve : NLResolver) (base : PyDateTime),
      parse resolve "remind me 3 months please, thanks 2x" base =
        some (addSeconds base 180, "3 m".data)) :=
  ⟨searchDuration_eq_spec, fun _ _ => rfl⟩

/-- Claim C8: the natural-language fallback tries, in order, the raw text,
"in {text}", "{text} from now"; it returns the first candidate that resolves
strictly after the reference instant, and returns failure (carrying no
target) when no phrase yields a strictly future instant — for every resolver,
text and reference it coincides with the spec-side `nlFirstFutureSpec`. -/
theorem C8_fallback_first_strictly_future (resolve : NLResolver)
    (cs : List Char) (base : PyDateTime) :
    parse_natural_language resolve cs base = nlFirstFutureSpec resolve cs base :=
  nlLoop_eq_findSome? resolve base cs (nlPhrases cs)

/-- Claim C9: for input "2 weeks" and any valid reference instant, the
explicit phase matches the weeks pattern (14 days = 1209600 seconds) and
`format_duration` of the parsed target against the same reference falls in
the weeks bucket, yielding exactly "2 weeks". -/
theorem C9_round_trip_two_weeks (resolve : NLResolver) (base : PyDateTime)
    (hb : ValidDT base) :
    (parse resolve "2 weeks" base).map (fun r => format_duration r.1 base) =
      some "2 weeks" := by
  have hp : parse resolve "2 weeks" base =
      some (addSeconds base (2 * 604800), "2 weeks".data) := rfl
  rw [hp]
  show some (format_duration (addSeconds base (2 * 604800)) base) = some "2 weeks"
  have hts : toSeconds (addSeconds base (2 * 604800)) = toSeconds base + 1209600 := by
    rw [toSeconds_addSeconds base (2 * 604800) hb]
  unfold format_duration
  rw [hts]
  have hsub : ((toSeconds base + 1209600 : Nat) : Int) - (toSeconds base : Int) =
      1209600 := by
    push_cast
    ring
  rw [hsub]
  rfl

/-- Witness for C9 at the concrete reference 2024-01-31T00:00:00Z. -/
theorem C9_witness :
    ValidDT ⟨2024, 1, 31, 0, 0, 0⟩ ∧
    (parse resolveNone "2 weeks" ⟨2024, 1, 31, 0, 0, 0⟩).map
        (fun r => format_duration r.1 ⟨2024, 1, 31, 0, 0, 0⟩) = some "2 weeks" :=
  ⟨by decide, C9_round_trip_two_weeks resolveNone ⟨2024, 1, 31, 0, 0, 0⟩ (by decide)⟩

/-- Claim C10: the explicit phase imposes no strictly-future requirement — a
matched amount of 0 leaves the reference instant unchanged for every unit,
and parsing "0 minutes" succeeds with target equal to the reference; the
strictly-future test (`toSeconds base < toSeconds t`) occurs only in the
natural-language fallback loop `nlLoop`. -/
theorem C10_zero_amount_accepted (resolve : NLResolver) (base : PyDateTime)
    (hb : ValidDT base) :
    (∀ u : TimeUnit, applyUnit u 0 base = base) ∧
    parse resolve "0 minutes" base = some (base, "0 minutes".data) := by
  have happly : ∀ u : TimeUnit, applyUnit u 0 base = base := by
    intro u
    cases u
    · exact addSeconds_zero base hb
    · show addSeconds base (0 * 60) = base
      rw [Nat.zero_mul]
      exact addSeconds_zero base hb
    · show addSeconds base (0 * 3600) = base
      rw [Nat.zero_mul]
      exact addSeconds_zero base hb
    · show addSeconds base (0 * 86400) = base
      rw [Nat.zero_mul]
      exact addSeconds_zero base hb
    · show addSeconds base (0 * 604800) = base
      rw [Nat.zero_mul]
      exact addSeconds_zero base hb
    · exact addMonths_zero base hb
    · exact addYears_zero base hb
  refine ⟨happly, ?_⟩
  have hp : parse resolve "0 minutes" base =
      some (applyUnit .minutes 0 base, "0 minutes".data) := rfl
  rw [hp, happly .minutes]

/-- Witness for C10 at the concrete reference 2024-01-31T05:06:07Z. -/
theorem C10_witness :
    ValidDT ⟨2024, 1, 31, 5, 6, 7⟩ ∧
    parse resolveNone "0 minutes" ⟨2024, 1, 31, 5, 6, 7⟩ =
      some (⟨2024, 1, 31, 5, 6, 7⟩, "0 minutes".data) :=
  ⟨by decide,
    (C10_zero_amount_accepted resolveNone ⟨2024, 1, 31, 5, 6, 7⟩ (by decide)).2⟩

/-! ## Claims about the intake processor -/

/-- The reminder row already present for event "e1" in the C3 scenario. -/
def c3reminder : Reminder :=
  { id := 0
    source_tweet_id := "e1"
    reply_to_tweet_id := "e1"
    requester_user_id := "u1"
    requester_username := "alice"
    original_text := "@bot 2 weeks"
    duration_text := "2 weeks"
    remind_at := ⟨2024, 2, 14, 0, 0, 0⟩
    created_at := ⟨2024, 1, 31, 0, 0, 0⟩
    is_sent := false
    sent_at := none
    reply_tweet_id := none
    error_message := none }

/-- A state already holding a reminder row for event "e1" whose processed
marker has not been written yet — the race window the C3 claim describes. -/
def c3db : BotDB :=
  { reminders := [c3reminder]
    nextReminderId := 1
    processedMentions := []
    lastMentionId := none
    outbox := [] }

/-- The same inbound event redelivered: parseable text, id colliding with
the reminder row already present in `c3db`. -/
def c3mention : Mention :=
  { id := "e1", text := "@bot 2 weeks", author_id := "u1",
    author_username := "alice" }

/-- Claim C3 — counterexample: with a reminder row for "e1" already present
and the event not yet marked processed, reprocessing the event leaves the
state completely unchanged — contrary to the claim, the event is NOT marked
processed (`processedMentions` stays empty), NO confirmation reply is sent
(`outbox` stays empty), and the cursor is NOT advanced (`lastMentionId`
stays `none`). -/
theorem C3_counterexample :
    process_mention resolveNone ⟨2024, 1, 31, 0, 0, 0⟩ c3db c3mention =
      (c3db, none) ∧
    c3db.processedMentions = [] ∧ c3db.outbox = [] ∧
    c3db.lastMentionId = none :=
  ⟨rfl, rfl, rfl, rfl⟩

/-- Claim C3 — amended: when the reminder insert is rejected by the
`source_tweet_id` unique constraint, `process_mention` rolls back and
returns `None` with no further side effects at all: the event is not marked
processed, no confirmation reply is sent, and the cursor is not advanced —
the state is returned unchanged (so the event will be re-fetched and
re-attempted by a later cycle). -/
theorem C3_insert_conflict_is_silent (resolve : NLResolver) (now : PyDateTime)
    (db : BotDB) (m : Mention)
    (h1 : is_mention_processed db m.id = false)
    (h2 : (parse resolve m.text now).isSome = true)
    (h3 : ∃ r ∈ db.reminders, r.source_tweet_id = m.id) :
    process_mention resolve now db m = (db, none) := by
  have hmem : m.id ∉ db.processedMentions := by
    simpa [is_mention_processed] using h1
  obtain ⟨pr, hpr⟩ := Option.isSome_iff_exists.mp h2
  obtain ⟨t, lab⟩ := pr
  unfold process_mention
  rw [if_neg (show ¬ is_mention_processed db m.id = true by
    simp [is_mention_processed, hmem])]
  rw [hpr]
  dsimp only
  rw [if_pos h3]

/-- Witness for the amended C3 at the concrete colliding state `c3db`. -/
theorem C3_witness :
    process_mention resolveNone ⟨2024, 1, 31, 0, 0, 0⟩ c3db c3mention =
      (c3db, none) :=
  C3_insert_conflict_is_silent resolveNone ⟨2024, 1, 31, 0, 0, 0⟩ c3db c3mention
    (by decide) (by decide) (by decide)

/-- Claim C4: processing the same fresh, parseable inbound event twice (two
sequential runs to completion) produces exactly one Reminder row for that
event id and exactly one confirmation reply, and the second run is skipped
entirely (it returns the intermediate state unchanged with no result). -/
theorem C4_idempotent_intake (resolve : NLResolver) (now : PyDateTime)
    (db : BotDB) (m : Mention) (t : PyDateTime) (lab : List Char)
    (h1 : is_mention_processed db m.id = false)
    (h2 : parse resolve m.text now = some (t, lab))
    (h3 : ¬ ∃ r ∈ db.reminders, r.source_tweet_id = m.id)
    (h4 : remindersFor db m.id = 0)
    (h5 : confirmsFor db m.id = 0) :
    remindersFor (process_mention resolve now
        (process_mention resolve now db m).1 m).1 m.id = 1 ∧
    confirmsFor (process_mention resolve now
        (process_mention resolve now db m).1 m).1 m.id = 1 ∧
    process_mention resolve now (process_mention resolve now db m).1 m =
      ((process_mention resolve now db m).1, none) := by
  have hmem : m.id ∉ db.processedMentions := by
    simpa [is_mention_processed] using h1
  have hs1 : process_mention resolve now db m =
      ({ db with
          reminders := db.reminders ++
            [{ id := db.nextReminderId, source_tweet_id := m.id,
               reply_to_tweet_id := m.id, requester_user_id := m.author_id,
               requester_username := m.author_username,
               original_text := m.text, duration_text := String.mk lab,
               remind_at := t, created_at := now, is_sent := false,
               sent_at := none, reply_tweet_id := none,
               error_message := none }],
          nextReminderId := db.nextReminderId + 1,
          processedMentions := db.processedMentions ++ [m.id],
          outbox := db.outbox ++ [.confirmReply m.id t (String.mk lab)],
          lastMentionId := some m.id },
       some { id := db.nextReminderId, source_tweet_id := m.id,
              reply_to_tweet_id := m.id, requester_user_id := m.author_id,
              requester_username := m.author_username,
              original_text := m.text, duration_text := String.mk lab,
              remind_at := t, created_at := now, is_sent := false,
              sent_at := none, reply_tweet_id := none,
              error_message := none }) := by
    unfold process_mention
    rw [if_neg (by simp [is_mention_processed, hmem] :
      ¬ is_mention_processed db m.id = true)]
    rw [h2]
    dsimp only
    rw [if_neg h3]
    unfold mark_mention_processed set_last_mention_id
    dsimp only
    rw [if_neg hmem]
  have hskip : process_mention resolve now (process_mention resolve now db m).1 m =
      ((process_mention resolve now db m).1, none) := by
    rw [hs1]
    unfold process_mention
    rw [if_pos]
    simp [is_mention_processed]
  have hrem : remindersFor (process_mention resolve now db m).1 m.id = 1 := by
    rw [hs1]
    unfold remindersFor at h4 ⊢
    dsimp only
    rw [List.countP_append, h4]
    simp
  have hconf : confirmsFor (process_mention resolve now db m).1 m.id = 1 := by
    rw [hs1]
    unfold confirmsFor at h5 ⊢
    dsimp only
    rw [List.countP_append, h5]
    simp [isConfirmFor]
  refine ⟨?_, ?_, hskip⟩
  · rw [hskip]
    exact hrem
  · rw [hskip]
    exact hconf

/-- A fresh empty store (no rows, no markers, no cursor, empty outbox). -/
def emptyDB : BotDB :=
  { reminders := [], nextReminderId := 0, processedMentions := [],
    lastMentionId := none, outbox := [] }

/-- A fresh parseable mention used to instantiate the intake claims. -/
def c4mention : Mention :=
  { id := "e7", text := "@bot 2 weeks", author_id := "u1",
    author_username := "alice" }

/-- Witness for C4 at the fresh empty state. -/
theorem C4_witness :
    remindersFor (process_mention resolveNone ⟨2024, 1, 31, 0, 0, 0⟩
        (process_mention resolveNone ⟨2024, 1, 31, 0, 0, 0⟩ emptyDB c4mention).1
        c4mention).1 c4mention.id = 1 ∧
    confirmsFor (process_mention resolveNone ⟨2024, 1, 31, 0, 0, 0⟩
        (process_mention resolveNone ⟨2024, 1, 31, 0, 0, 0⟩ emptyDB c4mention).1
        c4mention).1 c4mention.id = 1 ∧
    process_mention resolveNone ⟨2024, 1, 31, 0, 0, 0⟩
        (process_mention resolveNone ⟨2024, 1, 31, 0, 0, 0⟩ emptyDB c4mention).1
        c4mention =
      ((process_mention resolveNone ⟨2024, 1, 31, 0, 0, 0⟩ emptyDB c4mention).1,
        none) :=
  C4_idempotent_intake resolveNone ⟨2024, 1, 31, 0, 0, 0⟩ emptyDB c4mention
    ⟨2024, 2, 14, 0, 0, 0⟩ "2 weeks".data rfl rfl (by decide) rfl rfl

/-- Claim C7: for an inbound event whose text the parser cannot understand,
`process_mention` marks the event processed, sends an error reply, creates no
Reminder row (only `processedMentions` and `outbox` change), and a second
processing of the same event is a complete no-op. -/
theorem C7_unparsable_input (resolve : NLResolver) (now : PyDateTime)
    (db : BotDB) (m : Mention)
    (h1 : is_mention_processed db m.id = false)
    (h2 : parse resolve m.text now = none) :
    process_mention resolve now db m =
      ({ db with processedMentions := db.processedMentions ++ [m.id],
                 outbox := db.outbox ++ [.errorReply m.id] }, none) ∧
    process_mention resolve now
        { db with processedMentions := db.processedMentions ++ [m.id],
                  outbox := db.outbox ++ [.errorReply m.id] } m =
      ({ db with processedMentions := db.processedMentions ++ [m.id],
                 outbox := db.outbox ++ [.errorReply m.id] }, none) := by
  have hmem : m.id ∉ db.processedMentions := by
    simpa [is_mention_processed] using h1
  constructor
  · unfold process_mention
    rw [if_neg (by simp [is_mention_processed, hmem] :
      ¬ is_mention_processed db m.id = true)]
    rw [h2]
    unfold mark_mention_processed
    dsimp only
    rw [if_neg hmem]
  · unfold process_mention
    rw [if_pos]
    simp [is_mention_processed]

/-- Witness for C7 at the fresh empty state with text "@bot hello there". -/
theorem C7_witness :
    process_mention resolveNone ⟨2024, 1, 31, 0, 0, 0⟩ emptyDB
        ⟨"e2", "@bot hello there", "u1", "alice"⟩ =
      ({ emptyDB with
          processedMentions := emptyDB.processedMentions ++ ["e2"],
          outbox := emptyDB.outbox ++ [.errorReply "e2"] }, none) :=
  (C7_unparsable_input resolveNone ⟨2024, 1, 31, 0, 0, 0⟩ emptyDB
      ⟨"e2", "@bot hello there", "u1", "alice"⟩ rfl rfl).1

/-! ## Claims about the delivery processor -/

/-- Claim C5: exactly-once delivery.  (a) `send_reminder` re-fetches the row
by id immediately before acting and, when the row is already Sent, skips it:
the state — in particular the outbound log — is unchanged and `True` is
returned, so a Sent reminder is never re-sent.  (b) For a store holding one
Pending reminder due at `now` whose outbound call succeeds, running the
Delivery Processor twice yields exactly one Pending→Sent transition and
exactly one outbound call (a single appended delivery event), the second run
returning the state of the first unchanged. -/
theorem C5_exactly_once_delivery :
    (∀ (outcome : SendOutcome) (now : PyDateTime) (db : BotDB) (rid : Nat)
        (r : Reminder),
      db.reminders.find? (fun x => x.id == rid) = some r →
      r.is_sent = true →
      send_reminder outcome now db rid = (db, true)) ∧
    (∀ (outcome : SendOutcome) (now : PyDateTime) (r : Reminder) (nid : Nat)
        (pm : List String) (lm : Option String) (ob : List OutEvent)
        (receipt : String),
      r.is_sent = false →
      toSeconds r.remind_at ≤ toSeconds now →
      outcome r.id = .ok receipt →
      process_due_reminders outcome now
          (process_due_reminders outcome now ⟨[r], nid, pm, lm, ob⟩) =
        ⟨[markSent now receipt r], nid, pm, lm,
          ob ++ [.reminderReply r.reply_to_tweet_id r.id true]⟩ ∧
      process_due_reminders outcome now
          (process_due_reminders outcome now ⟨[r], nid, pm, lm, ob⟩) =
        process_due_reminders outcome now ⟨[r], nid, pm, lm, ob⟩) := by
  constructor
  · intro outcome now db rid r hfind hsent
    unfold send_reminder
    rw [hfind]
    dsimp only
    rw [hsent]
    rfl
  · intro outcome now r nid pm lm ob receipt hsent hdue hok
    have hdue1 : get_due_reminders ⟨[r], nid, pm, lm, ob⟩ now = [r] := by
      simp [get_due_reminders, hsent, hdue]
    have hsend : send_reminder outcome now ⟨[r], nid, pm, lm, ob⟩ r.id =
        (⟨[markSent now receipt r], nid, pm, lm,
          ob ++ [.reminderReply r.reply_to_tweet_id r.id true]⟩, true) := by
      unfold send_reminder
      have hfind : List.find? (fun x => x.id == r.id) [r] = some r := by
        simp [List.find?]
      rw [hfind]
      dsimp only
      rw [hsent]
      simp only [Bool.false_eq_true, if_false]
      rw [hok]
      dsimp only [updateReminder, List.map]
      rw [if_pos rfl]
    have hsent2 : (markSent now receipt r).is_sent = true := rfl
    have hrun1 : process_due_reminders outcome now ⟨[r], nid, pm, lm, ob⟩ =
        ⟨[markSent now receipt r], nid, pm, lm,
          ob ++ [.reminderReply r.reply_to_tweet_id r.id true]⟩ := by
      unfold process_due_reminders
      rw [hdue1]
      dsimp only [List.foldl]
      rw [hsend]
    have hdue2 : get_due_reminders
        ⟨[markSent now receipt r], nid, pm, lm,
          ob ++ [.reminderReply r.reply_to_tweet_id r.id true]⟩ now = [] := by
      simp [get_due_reminders, hsent2]
    have hrun2 : process_due_reminders outcome now
        ⟨[markSent now receipt r], nid, pm, lm,
          ob ++ [.reminderReply r.reply_to_tweet_id r.id true]⟩ =
        ⟨[markSent now receipt r], nid, pm, lm,
          ob ++ [.reminderReply r.reply_to_tweet_id r.id true]⟩ := by
      unfold process_due_reminders
      rw [hdue2]
      rfl
    constructor
    · rw [hrun1, hrun2]
    · rw [hrun1, hrun2]

/-- A concrete Pending reminder due in the delivery-claim witnesses. -/
def c5r : Reminder :=
  { id := 3
    source_tweet_id := "e9"
    reply_to_tweet_id := "e9"
    requester_user_id := "u1"
    requester_username := "alice"
    original_text := "@bot 2 weeks"
    duration_text := "2 weeks"
    remind_at := ⟨2024, 2, 14, 0, 0, 0⟩
    created_at := ⟨2024, 1, 31, 0, 0, 0⟩
    is_sent := false
    sent_at := none
    reply_tweet_id := none
    error_message := none }

/-- An outbound collaborator that always succeeds with receipt "rcpt". -/
def okOutcome : SendOutcome := fun _ => .ok "rcpt"

/-- Witness for C5: the skip guard on an already-Sent row, and the two-run
exactly-once property for the concrete Pending reminder `c5r`. -/
theorem C5_witness :
    send_reminder okOutcome ⟨2024, 3, 1, 0, 0, 0⟩
        ⟨[{ c5r with is_sent := true }], 4, [], none, []⟩ 3 =
      (⟨[{ c5r with is_sent := true }], 4, [], none, []⟩, true) ∧
    process_due_reminders okOutcome ⟨2024, 3, 1, 0, 0, 0⟩
        (process_due_reminders okOutcome ⟨2024, 3, 1, 0, 0, 0⟩
          ⟨[c5r], 4, [], none, []⟩) =
      ⟨[markSent ⟨2024, 3, 1, 0, 0, 0⟩ "rcpt" c5r], 4, [], none,
        [] ++ [.reminderReply c5r.reply_to_tweet_id c5r.id true]⟩ :=
  ⟨C5_exactly_once_delivery.1 okOutcome ⟨2024, 3, 1, 0, 0, 0⟩
      ⟨[{ c5r with is_sent := true }], 4, [], none, []⟩ 3
      { c5r with is_sent := true } (by decide) rfl,
    (C5_exactly_once_delivery.2 okOutcome ⟨2024, 3, 1, 0, 0, 0⟩ c5r 4 [] none []
      "rcpt" rfl (by decide) rfl).1⟩

/-- Claim C6: failure isolation and unbounded retry.  With two due Pending
reminders A and B where the outbound call for A raises and the one for B
succeeds, one delivery cycle records the error message on A and leaves A
unsent (no terminal Failed state), still attempts and delivers B in the same
cycle (both delivery events are appended), and the next cycle's due query
returns A again (so A is retried). -/
theorem C6_failure_isolated (outcome : SendOutcome) (now : PyDateTime)
    (ra rb : Reminder) (nid : Nat) (pm : List String) (lm : Option String)
    (ob : List OutEvent) (e receipt : String)
    (ha : ra.is_sent = false) (hb : rb.is_sent = false)
    (hda : toSeconds ra.remind_at ≤ toSeconds now)
    (hdb : toSeconds rb.remind_at ≤ toSeconds now)
    (hne : ra.id ≠ rb.id)
    (hoa : outcome ra.id = .error e) (hob : outcome rb.id = .ok receipt) :
    process_due_reminders outcome now ⟨[ra, rb], nid, pm, lm, ob⟩ =
      ⟨[recordError e ra, markSent now receipt rb], nid, pm, lm,
        ob ++ [.reminderReply ra.reply_to_tweet_id ra.id false] ++
          [.reminderReply rb.reply_to_tweet_id rb.id true]⟩ ∧
    get_due_reminders
        (process_due_reminders outcome now ⟨[ra, rb], nid, pm, lm, ob⟩) now =
      [recordError e ra] := by
  have hne2 : rb.id ≠ ra.id := Ne.symm hne
  have hdue1 : get_due_reminders ⟨[ra, rb], nid, pm, lm, ob⟩ now = [ra, rb] := by
    simp [get_due_reminders, ha, hb, hda, hdb]
  have hsendA : send_reminder outcome now ⟨[ra, rb], nid, pm, lm, ob⟩ ra.id =
      (⟨[recordError e ra, rb], nid, pm, lm,
        ob ++ [.reminderReply ra.reply_to_tweet_id ra.id false]⟩, false) := by
    unfold send_reminder
    have hfind : List.find? (fun x => x.id == ra.id) [ra, rb] = some ra := by
      simp [List.find?]
    rw [hfind]
    dsimp only
    rw [ha]
    simp only [Bool.false_eq_true, if_false]
    rw [hoa]
    dsimp only [updateReminder, List.map]
    rw [if_pos rfl, if_neg hne2]
  have hsendB : send_reminder outcome now
      ⟨[recordError e ra, rb], nid, pm, lm,
        ob ++ [.reminderReply ra.reply_to_tweet_id ra.id false]⟩ rb.id =
      (⟨[recordError e ra, markSent now receipt rb], nid, pm, lm,
        ob ++ [.reminderReply ra.reply_to_tweet_id ra.id false] ++
          [.reminderReply rb.reply_to_tweet_id rb.id true]⟩, true) := by
    unfold send_reminder
    have hfind : List.find? (fun x => x.id == rb.id) [recordError e ra, rb] =
        some rb := by
      have hbeq : (ra.id == rb.id) = false := beq_eq_false_iff_ne.mpr hne
      simp [List.find?, recordError, hbeq]
    rw [hfind]
    dsimp only
    rw [hb]
    simp only [Bool.false_eq_true, if_false]
    rw [hob]
    dsimp only [updateReminder, List.map, recordError]
    rw [if_neg hne, if_pos rfl]
  have hrun : process_due_reminders outcome now ⟨[ra, rb], nid, pm, lm, ob⟩ =
      ⟨[recordError e ra, markSent now receipt rb], nid, pm, lm,
        ob ++ [.reminderReply ra.reply_to_tweet_id ra.id false] ++
          [.reminderReply rb.reply_to_tweet_id rb.id true]⟩ := by
    unfold process_due_reminders
    rw [hdue1]
    dsimp only [List.foldl]
    rw [hsendA]
    dsimp only
    rw [hsendB]
  refine ⟨hrun, ?_⟩
  rw [hrun]
  have hsentA : (recordError e ra).is_sent = false := by
    simpa [recordError] using ha
  have hsentB : (markSent now receipt rb).is_sent = true := rfl
  have hdueA : toSeconds (recordError e ra).remind_at ≤ toSeconds now := hda
  simp [get_due_reminders, hsentA, hsentB, hdueA]

/-- A second concrete due reminder whose outbound call will fail. -/
def c6ra : Reminder :=
  { c5r with id := 5, source_tweet_id := "e5", reply_to_tweet_id := "e5" }

/-- An outbound collaborator failing exactly for reminder id 5. -/
def c6outcome : SendOutcome :=
  fun i => if i = 5 then .error "boom" else .ok "rcpt"

/-- Witness for C6 with the failing reminder `c6ra` (id 5) and the
succeeding reminder `c5r` (id 3). -/
theorem C6_witness :
    process_due_reminders c6outcome ⟨2024, 3, 1, 0, 0, 0⟩
        ⟨[c6ra, c5r], 9, [], none, []⟩ =
      ⟨[recordError "boom" c6ra, markSent ⟨2024, 3, 1, 0, 0, 0⟩ "rcpt" c5r],
        9, [], none,
        [] ++ [.reminderReply c6ra.reply_to_tweet_id c6ra.id false] ++
          [.reminderReply c5r.reply_to_tweet_id c5r.id true]⟩ ∧
    get_due_reminders
        (process_due_reminders c6outcome ⟨2024, 3, 1, 0, 0, 0⟩
          ⟨[c6ra, c5r], 9, [], none, []⟩) ⟨2024, 3, 1, 0, 0, 0⟩ =
      [recordError "boom" c6ra] :=
  C6_failure_isolated c6outcome ⟨2024, 3, 1, 0, 0, 0⟩ c6ra c5r 9 [] none []
    "boom" "rcpt" rfl rfl (by decide) (by decide) (by decide) rfl rfl

end RemindMeX
